import Mathlib

/-!
Shallow embedding of the EVG Ultimate Team frontend (TypeScript/React) for
specification checking.  Each definition is translated from a named source
file; machine numbers are Nat/Int, JS objects are structures, fallible code
returns Except/Option, React component state is explicit state passing.
-/

/-! ### Pack tier configuration
From src/frontend/src/types/pack.ts (src/unnamed/part_017) and
src/frontend/src/utils/constants.ts. -/

/-- The four pack tiers, from the `PackTier` union type in the pack types module. -/
inductive PackTier where
  | bronze
  | silver
  | gold
  | ultimate
deriving DecidableEq, Repr

/-- One entry of `PACK_CONFIG` (pack types module). -/
structure PackConfig where
  tier : PackTier
  cost : Nat
  color : String
  glowColor : String
  name : String
deriving DecidableEq, Repr

/-- The `PACK_CONFIG` table from the pack types module, entry by entry. -/
def PACK_CONFIG : PackTier → PackConfig
  | .bronze =>
    { tier := .bronze, cost := 100, color := "#CD7F32",
      glowColor := "rgba(205, 127, 50, 0.5)", name := "Bronze Pack" }
  | .silver =>
    { tier := .silver, cost := 200, color := "#C0C0C0",
      glowColor := "rgba(192, 192, 192, 0.5)", name := "Silver Pack" }
  | .gold =>
    { tier := .gold, cost := 300, color := "#D4AF37",
      glowColor := "rgba(212, 175, 55, 0.6)", name := "Gold Pack" }
  | .ultimate =>
    { tier := .ultimate, cost := 500, color := "#DA291C",
      glowColor := "rgba(218, 41, 28, 0.6)", name := "Ultimate Pack" }

/-- One entry of `PACK_TIERS` (constants module). -/
structure PackTierInfo where
  name : String
  cost : Nat
  color : String
deriving DecidableEq, Repr

/-- The `PACK_TIERS` table from src/frontend/src/utils/constants.ts
(colors referenced from the `COLORS` palette in the same file). -/
def PACK_TIERS : PackTier → PackTierInfo
  | .bronze => { name := "Bronze", cost := 100, color := "#CD7F32" }
  | .silver => { name := "Silver", cost := 200, color := "#C0C0C0" }
  | .gold => { name := "Gold", cost := 300, color := "#D4AF37" }
  | .ultimate => { name := "Ultimate", cost := 500, color := "#D4AF37" }

/-! ### PackCard rendering
From src/frontend/src/components/packs/PackCard.tsx.  The component's
button area renders exactly one of three shapes, chosen by the
canOpen / canPurchase cascade in the source. -/

/-- The three mutually exclusive button areas a `PackCard` can render:
the OUVRIR (open) button, an enabled ACHETER (purchase) button, or a
disabled ACHETER button. -/
inductive PackCardButtons where
  | openButton
  | purchaseEnabled
  | purchaseDisabled
deriving DecidableEq, Repr

/-- The `canPurchase` flag computed in `PackCard`:
`userCredits >= config.cost`. -/
def canPurchase (tier : PackTier) (userCredits : Nat) : Bool :=
  decide (userCredits ≥ (PACK_CONFIG tier).cost)

/-- The button area `PackCard` renders, following the source's
`canOpen ? open : canPurchase ? enabled purchase : disabled purchase`
cascade. -/
def packCardButtons (tier : PackTier) (canOpen : Bool) (userCredits : Nat) :
    PackCardButtons :=
  if canOpen then .openButton
  else if canPurchase tier userCredits then .purchaseEnabled
  else .purchaseDisabled

/-! ### PacksPage inventory wiring
From src/frontend/src/pages/PacksPage.tsx. -/

/-- The `PackInventory` record from the pack types module. -/
structure PackInventory where
  bronze : Nat
  silver : Nat
  gold : Nat
  ultimate : Nat
deriving DecidableEq, Repr

/-- The per-tier count `inventory?.<tier> || 0` used by `PacksPage`
(`inventory` is null until loaded). -/
def inventoryCount (inventory : Option PackInventory) : PackTier → Nat
  | .bronze => (inventory.map PackInventory.bronze).getD 0
  | .silver => (inventory.map PackInventory.silver).getD 0
  | .gold => (inventory.map PackInventory.gold).getD 0
  | .ultimate => (inventory.map PackInventory.ultimate).getD 0

/-- The `canOpen` prop `PacksPage` passes to each `PackCard`:
`(inventory?.<tier> || 0) > 0 && !isOpening`. -/
def pageCanOpen (inventory : Option PackInventory) (tier : PackTier)
    (isOpening : Bool) : Bool :=
  decide (inventoryCount inventory tier > 0) && !isOpening

/-- The button area rendered for a tier on the packs page, composing
`PacksPage`'s props with `PackCard`'s rendering. -/
def pagePackButtons (inventory : Option PackInventory) (tier : PackTier)
    (isOpening : Bool) (userCredits : Nat) : PackCardButtons :=
  packCardButtons tier (pageCanOpen inventory tier isOpening) userCredits

/-! ### Theorems for claims C5, C2, C3 -/

/-- C5: the two static pack-tier cost tables agree and match the spec's
fixed costs — for every tier, `PACK_CONFIG[tier].cost` equals the
`PACK_TIERS` cost, with bronze 100, silver 200, gold 300, ultimate 500
(so the silver pack of the spec's example scenario costs 200).  Both
tables are `const` object literals in the source and are embedded here as
pure total functions, immutable by construction. -/
theorem pack_cost_tables_agree :
    (∀ t : PackTier, (PACK_CONFIG t).cost = (PACK_TIERS t).cost) ∧
    (PACK_CONFIG .bronze).cost = 100 ∧ (PACK_CONFIG .silver).cost = 200 ∧
    (PACK_CONFIG .gold).cost = 300 ∧ (PACK_CONFIG .ultimate).cost = 500 := by
  refine ⟨fun t => ?_, rfl, rfl, rfl, rfl⟩
  cases t <;> rfl

/-- C2 counterexample: the claim says an enabled purchase button is
rendered if and only if `userCredits ≥ PACK_CONFIG[tier].cost`, but when
`canOpen` is true `PackCard` renders only the OUVRIR button — at tier
bronze with 100 credits (≥ the cost of 100) and `canOpen = true`, no
enabled purchase button is rendered. -/
theorem packCard_purchase_iff_false :
    100 ≥ (PACK_CONFIG .bronze).cost ∧
    packCardButtons .bronze true 100 ≠ PackCardButtons.purchaseEnabled := by
  decide

/-- C2 amended: when `canOpen` is false (no pack of the tier is openable),
`PackCard` renders an enabled purchase button iff `userCredits` is at
least `PACK_CONFIG[tier].cost` and a disabled purchase button iff it is
below the cost; when `canOpen` is true no purchase button is rendered at
all (only the open button).  So a purchase that would fail with
`InsufficientCreditsError` is never initiated from the card. -/
theorem packCard_purchase_button_spec (tier : PackTier) (co : Bool)
    (userCredits : Nat) :
    (packCardButtons tier co userCredits = PackCardButtons.purchaseEnabled ↔
      co = false ∧ userCredits ≥ (PACK_CONFIG tier).cost) ∧
    (packCardButtons tier co userCredits = PackCardButtons.purchaseDisabled ↔
      co = false ∧ userCredits < (PACK_CONFIG tier).cost) ∧
    (co = true → packCardButtons tier co userCredits =
      PackCardButtons.openButton) := by
  unfold packCardButtons canPurchase
  cases co with
  | true => simp
  | false =>
    by_cases h : userCredits ≥ (PACK_CONFIG tier).cost
    · simp [h]
    · simp [h, Nat.lt_of_not_le h]

/-- Witness for the amended C2 theorem at tier silver: with 250 credits
and `canOpen = false` the enabled purchase button is rendered, and the
open-flag implication is vacuous. -/
theorem packCard_purchase_button_spec_witness :
    packCardButtons .silver false 250 = PackCardButtons.purchaseEnabled ∧
    ¬ packCardButtons .silver false 250 = PackCardButtons.purchaseDisabled := by
  have h := packCard_purchase_button_spec .silver false 250
  exact ⟨h.1.mpr ⟨rfl, by decide⟩,
    fun hc => absurd (h.2.1.mp hc).2 (by decide)⟩

/-- C3: on the packs page the open-pack action (the OUVRIR button) is
offered for a tier iff the loaded inventory count for that tier is at
least 1 and no other open is in flight (`isOpening` false), for every
credit balance — so an `openPack` call that would fail with
`NoInventoryError` is unreachable from the page. -/
theorem packsPage_open_offered_iff (inventory : Option PackInventory)
    (tier : PackTier) (op : Bool) (userCredits : Nat) :
    pagePackButtons inventory tier op userCredits =
      PackCardButtons.openButton ↔
    inventoryCount inventory tier ≥ 1 ∧ op = false := by
  unfold pagePackButtons packCardButtons pageCanOpen canPurchase
  cases op with
  | true =>
    simp only [Bool.and_false, Bool.not_true, if_false]
    split
    · simp_all
    · split <;> simp
  | false =>
    by_cases h : inventoryCount inventory tier > 0
    · simp [h, Nat.one_le_iff_ne_zero, Nat.pos_iff_ne_zero.mp h]
    · by_cases h2 : userCredits ≥ (PACK_CONFIG tier).cost <;>
        simp [h, h2] <;> omega

/-! ### WebSocket hook and leaderboard page
From src/frontend/src/hooks/useWebSocket.ts,
src/frontend/src/pages/LeaderboardPage.tsx and the participant types
module (src/unnamed/part_014). -/

/-- The `ParticipantWithRank` record (participant types module):
`ParticipantSummary` plus rank and optional points_today. -/
structure ParticipantWithRank where
  id : Nat
  name : String
  avatar_url : Option String
  is_groom : Bool
  total_points : Int
  pack_credits : Nat
  rank : Nat
  points_today : Option Int
deriving DecidableEq, Repr

/-- A parsed message delivered on the leaderboard WebSocket: a `type` tag
and a `data` payload holding the full ranked list. -/
structure WSMessage where
  type : String
  data : List ParticipantWithRank
deriving DecidableEq, Repr

/-- The `reconnect` and `reconnectInterval` options of `useWebSocket`. -/
structure UseWebSocketOptions where
  reconnect : Bool
  reconnectInterval : Nat
deriving DecidableEq, Repr

/-- The defaults destructured in `useWebSocket`:
`reconnect = true, reconnectInterval = 3000`. -/
def defaultWebSocketOptions : UseWebSocketOptions :=
  { reconnect := true, reconnectInterval := 3000 }

/-- Transport events the socket handlers of `useWebSocket` react to. -/
inductive WSEvent where
  | opened
  | received (m : WSMessage)
  | closed
deriving DecidableEq, Repr

/-- The hook state `useWebSocket` keeps: `isConnected` and `lastMessage`.
There is no buffer of past messages — `onmessage` overwrites
`lastMessage`. -/
structure WSHookState where
  isConnected : Bool
  lastMessage : Option WSMessage
deriving DecidableEq, Repr

/-- Hook state before the socket opens. -/
def wsInitialState : WSHookState := { isConnected := false, lastMessage := none }

/-- One step of the socket handlers in `connect`: `onopen` sets
`isConnected`; `onmessage` stores the message as `lastMessage`; `onclose`
clears `isConnected` and, when `reconnect` is enabled, schedules a single
`setTimeout(connect, reconnectInterval)` — the returned `Option Nat` is
the delay of the timer scheduled by this event, if any. -/
def wsStep (opts : UseWebSocketOptions) (s : WSHookState) :
    WSEvent → WSHookState × Option Nat
  | .opened => ({ s with isConnected := true }, none)
  | .received m => ({ s with lastMessage := some m }, none)
  | .closed =>
    ({ s with isConnected := false },
     if opts.reconnect then some opts.reconnectInterval else none)

/-- Run the hook over a sequence of transport events, collecting every
scheduled reconnect delay in order. -/
def wsRun (opts : UseWebSocketOptions) (s : WSHookState) :
    List WSEvent → WSHookState × List Nat
  | [] => (s, [])
  | e :: es =>
    let step := wsStep opts s e
    let rest := wsRun opts step.1 es
    (rest.1, step.2.toList ++ rest.2)

/-- Whether a transport event is a connection close. -/
def isCloseEvent : WSEvent → Bool
  | .closed => true
  | _ => false

/-- The component state of `LeaderboardPage`: the displayed leaderboard
and the loading flag. -/
structure LeaderboardPageState where
  leaderboard : List ParticipantWithRank
  isLoading : Bool
deriving DecidableEq, Repr

/-- State of `LeaderboardPage` at mount: empty list, loading. -/
def leaderboardPageMount : LeaderboardPageState :=
  { leaderboard := [], isLoading := true }

/-- The `onMessage` handler of `LeaderboardPage`: a message of type
`leaderboard_initial` or `leaderboard_update` replaces the whole
leaderboard and ends the loading state; any other message is ignored. -/
def leaderboardPageOnMessage (s : LeaderboardPageState) (m : WSMessage) :
    LeaderboardPageState :=
  if m.type = "leaderboard_initial" ∨ m.type = "leaderboard_update" then
    { leaderboard := m.data, isLoading := false }
  else s

/-- What `LeaderboardPage` renders: the loader while `isLoading`,
otherwise the leaderboard rows. -/
inductive LeaderboardRender where
  | loader (message : String)
  | board (entries : List ParticipantWithRank)
deriving DecidableEq, Repr

/-- The render function of `LeaderboardPage`. -/
def leaderboardPageRender (s : LeaderboardPageState) : LeaderboardRender :=
  if s.isLoading then .loader "Loading leaderboard..." else .board s.leaderboard

/-- Process a sequence of received messages through the page handler. -/
def leaderboardPageProcess (s : LeaderboardPageState)
    (ms : List WSMessage) : LeaderboardPageState :=
  ms.foldl leaderboardPageOnMessage s

/-- Modelled from the spec: the Broadcast Hub server is not part of this
frontend-only repository.  Per the spec, `register(connection)` delivers
an immediate full snapshot — equal to `Aggregator.snapshot()` taken at
registration time — before any later update push, and each later
recompute pushes a fresh full snapshot.  So the wire trace a viewer
receives is the registration snapshot (type `leaderboard_initial`)
followed by the later snapshots (type `leaderboard_update`). -/
def hubViewerMessages (snapshotAtRegistration : List ParticipantWithRank)
    (laterSnapshots : List (List ParticipantWithRank)) : List WSMessage :=
  { type := "leaderboard_initial", data := snapshotAtRegistration } ::
    laterSnapshots.map (fun snap => { type := "leaderboard_update", data := snap })

/-! ### Theorems for claims C4 and C1 -/

/-- Helper: the reconnect delays collected by `wsRun` are one fixed
`reconnectInterval` per close event when `reconnect` is enabled, and none
otherwise, from any starting hook state. -/
theorem wsRun_delays (opts : UseWebSocketOptions) (s : WSHookState)
    (events : List WSEvent) :
    (wsRun opts s events).2 =
      if opts.reconnect then
        List.replicate (events.countP isCloseEvent) opts.reconnectInterval
      else [] := by
  induction events generalizing s with
  | nil => cases h : opts.reconnect <;> simp [wsRun, h]
  | cons e es ih =>
    cases e <;>
      cases h : opts.reconnect <;>
        simp [wsRun, wsStep, isCloseEvent, List.countP_cons, ih, h,
          List.replicate_succ]

/-- Helper: replacing the whole leaderboard — processing any message of
type `leaderboard_update` or `leaderboard_initial` from any page state
yields exactly that message's payload with loading over. -/
theorem leaderboardPage_replaces (s : LeaderboardPageState) (m : WSMessage)
    (h : m.type = "leaderboard_initial" ∨ m.type = "leaderboard_update") :
    leaderboardPageOnMessage s m =
      { leaderboard := m.data, isLoading := false } := by
  simp [leaderboardPageOnMessage, h]

/-- C4: whenever the connection closes with `reconnect` enabled (its
default), `useWebSocket` schedules exactly one reconnection timer of
exactly `reconnectInterval` milliseconds — one timer per close event, the
same fixed interval every time (no backoff), with defaults
`reconnect = true` and `reconnectInterval = 3000`; and the client keeps no
replay buffer: after any sequence of prior messages, a single fresh
full-snapshot message alone determines the displayed leaderboard. -/
theorem useWebSocket_reconnect_fixed_interval (opts : UseWebSocketOptions)
    (events : List WSEvent) (prior : List WSMessage)
    (snap : List ParticipantWithRank) :
    ((wsRun opts wsInitialState events).2 =
      if opts.reconnect then
        List.replicate (events.countP isCloseEvent) opts.reconnectInterval
      else []) ∧
    defaultWebSocketOptions.reconnect = true ∧
    defaultWebSocketOptions.reconnectInterval = 3000 ∧
    leaderboardPageProcess leaderboardPageMount
        (prior ++ [{ type := "leaderboard_update", data := snap }]) =
      { leaderboard := snap, isLoading := false } := by
  refine ⟨wsRun_delays opts wsInitialState events, rfl, rfl, ?_⟩
  unfold leaderboardPageProcess
  rw [List.foldl_append, List.foldl_cons, List.foldl_nil]
  apply leaderboardPage_replaces
  exact Or.inr rfl

/-- C1: a freshly mounted leaderboard page renders the loading state; the
first message a newly registered viewer receives from the hub is the full
snapshot taken at registration (type `leaderboard_initial`), and
processing that first message alone ends the loading state and displays
exactly that snapshot; moreover every hub message fully replaces the
displayed leaderboard — so no viewer waits for a subsequent mutation to
see current state. -/
theorem leaderboard_snapshot_on_connect (snap : List ParticipantWithRank)
    (laterSnapshots : List (List ParticipantWithRank)) :
    leaderboardPageRender leaderboardPageMount =
      LeaderboardRender.loader "Loading leaderboard..." ∧
    (hubViewerMessages snap laterSnapshots).head? =
      some { type := "leaderboard_initial", data := snap } ∧
    leaderboardPageProcess leaderboardPageMount
        ((hubViewerMessages snap laterSnapshots).take 1) =
      { leaderboard := snap, isLoading := false } ∧
    ∀ m ∈ hubViewerMessages snap laterSnapshots, ∀ s : LeaderboardPageState,
      leaderboardPageOnMessage s m =
        { leaderboard := m.data, isLoading := false } := by
  refine ⟨rfl, rfl, ?_, ?_⟩
  · simp [hubViewerMessages, leaderboardPageProcess,
      leaderboardPageOnMessage]
  · intro m hm s
    apply leaderboardPage_replaces
    simp only [hubViewerMessages, List.mem_cons, List.mem_map] at hm
    rcases hm with h | ⟨x, _, h⟩ <;> subst h <;> simp

/-- Witness for C1 at a concrete snapshot: registering with an empty
snapshot and no later pushes, the first message ends loading and displays
the registration snapshot, and the initial hub message fully replaces any
page state. -/
theorem leaderboard_snapshot_on_connect_witness :
    leaderboardPageProcess leaderboardPageMount
        ((hubViewerMessages [] []).take 1) =
      { leaderboard := [], isLoading := false } ∧
    leaderboardPageOnMessage leaderboardPageMount
        { type := "leaderboard_initial", data := [] } =
      { leaderboard := [], isLoading := false } := by
  have h := leaderboard_snapshot_on_connect [] []
  exact ⟨h.2.2.1, h.2.2.2 _ (by simp [hubViewerMessages]) _⟩

/-! ### Points service
From src/frontend/src/services/pointsService.ts and the points types
module (src/unnamed/part_016). -/

/-- The `PointsTransaction` record (points types module). -/
structure PointsTransaction where
  id : Nat
  participant_id : Nat
  amount : Int
  reason : String
  challenge_id : Option Nat
  created_by : Option Nat
  created_at : String
deriving DecidableEq, Repr

/-- The `PointsHistory` record (points types module): the page of
transactions, the total transaction count and the current balance. -/
structure PointsHistory where
  participant_id : Nat
  participant_name : String
  current_points : Int
  transactions : List PointsTransaction
  total_transactions : Nat
deriving DecidableEq, Repr

/-- A GET request to the points-history endpoint: the url and the two
query parameters `skip` and `limit` passed in `params`. -/
structure HistoryRequest where
  url : String
  skip : Nat
  limit : Nat
deriving DecidableEq, Repr

/-- The request `getPointsHistory` builds:
`GET /points/history/{participantId}` with `params: { skip, limit }`. -/
def historyRequest (participantId skip limit : Nat) : HistoryRequest :=
  { url := "/points/history/" ++ toString participantId,
    skip := skip, limit := limit }

/-- The `APIResponse<PointsHistory>` envelope (API types module); only
the optional `data` field is read by `getPointsHistory`. -/
structure APIResponseHistory where
  success : Bool
  data : Option PointsHistory
  error : Option String
deriving DecidableEq, Repr

/-- The `getPointsHistory` service function: it issues exactly one
request, `historyRequest participantId skip limit`, against the API
client `api`, returns the carried `PointsHistory` when the response has
`data`, and throws (`Except.error`) otherwise. -/
def getPointsHistory (api : HistoryRequest → APIResponseHistory)
    (participantId skip limit : Nat) : Except String PointsHistory :=
  match (api (historyRequest participantId skip limit)).data with
  | some d => .ok d
  | none => .error "Failed to get points history"

/-- The call with the source's default arguments `skip = 0, limit = 100`. -/
def getPointsHistoryDefaults (api : HistoryRequest → APIResponseHistory)
    (participantId : Nat) : Except String PointsHistory :=
  getPointsHistory api participantId 0 100

/-- C6: `getPointsHistory` consults the API only at the request carrying
exactly the given `skip` and `limit` (two clients that agree on that one
request give the same result); it returns the carried `PointsHistory`
(transactions page, `total_transactions`, `current_points`) when the
response has data, throws an error when it does not, and its defaults are
`skip = 0, limit = 100`. -/
theorem getPointsHistory_spec
    (api api2 : HistoryRequest → APIResponseHistory)
    (participantId skip limit : Nat) (hist : PointsHistory)
    (hagree : api (historyRequest participantId skip limit) =
      api2 (historyRequest participantId skip limit)) :
    (getPointsHistory api participantId skip limit =
      getPointsHistory api2 participantId skip limit) ∧
    ((api (historyRequest participantId skip limit)).data = some hist →
      getPointsHistory api participantId skip limit = .ok hist) ∧
    ((api (historyRequest participantId skip limit)).data = none →
      getPointsHistory api participantId skip limit =
        .error "Failed to get points history") ∧
    getPointsHistoryDefaults api participantId =
      getPointsHistory api participantId 0 100 := by
  refine ⟨?_, ?_, ?_, rfl⟩
  · unfold getPointsHistory
    rw [hagree]
  · intro h
    unfold getPointsHistory
    rw [h]
  · intro h
    unfold getPointsHistory
    rw [h]

/-- A concrete history page used by the C6 witness. -/
def sampleHistory : PointsHistory :=
  { participant_id := 1, participant_name := "Paul C.",
    current_points := 50,
    transactions :=
      [{ id := 7, participant_id := 1, amount := 50,
         reason := "challenge", challenge_id := some 3,
         created_by := some 2, created_at := "2025-06-01" }],
    total_transactions := 1 }

/-- A concrete API client answering every request with `sampleHistory`. -/
def sampleHistoryApi : HistoryRequest → APIResponseHistory := fun _ =>
  { success := true, data := some sampleHistory, error := none }

/-- Witness for C6: against `sampleHistoryApi`, participant 1 with the
default pagination gets back exactly `sampleHistory`. -/
theorem getPointsHistory_spec_witness :
    getPointsHistory sampleHistoryApi 1 0 100 = .ok sampleHistory := by
  have h := getPointsHistory_spec sampleHistoryApi sampleHistoryApi
    1 0 100 sampleHistory rfl
  exact h.2.1 rfl

/-! ### Current user from localStorage
From the auth service (second document of
src/frontend/src/services/pointsService.ts). -/

/-- The `CurrentUser` record stored under the `current_user` key. -/
structure CurrentUser where
  id : Nat
  username : String
  is_admin : Bool
  is_groom : Bool
deriving DecidableEq, Repr

/-- The `getCurrentUser` service function.  `store` models
`localStorage.getItem` (`none` when the key is absent); `parse` models
`JSON.parse` (`Except.error` when it would throw).  The source returns
null on a falsy stored value (absent key or empty string), wraps the
parse in try/catch returning null on failure, and otherwise returns the
parsed object — so no exception escapes. -/
def getCurrentUser (store : String → Option String)
    (parse : String → Except String CurrentUser) : Option CurrentUser :=
  match store "current_user" with
  | none => none
  | some s =>
    if s = "" then none
    else
      match parse s with
      | .ok u => some u
      | .error _ => none

/-- C10: `getCurrentUser` never throws — for every localStorage state it
returns the parsed user when the `current_user` key holds valid JSON, and
null both when the key is absent and when its value fails to parse (the
hypothesis records that `JSON.parse` of the empty string always throws,
matching the source treating an empty stored string as absent). -/
theorem getCurrentUser_never_throws (store : String → Option String)
    (parse : String → Except String CurrentUser)
    (hempty : ∀ u : CurrentUser, parse "" ≠ .ok u) :
    (store "current_user" = none → getCurrentUser store parse = none) ∧
    (∀ s u, store "current_user" = some s → parse s = .ok u →
      getCurrentUser store parse = some u) ∧
    (∀ s e, store "current_user" = some s → parse s = .error e →
      getCurrentUser store parse = none) := by
  refine ⟨?_, ?_, ?_⟩
  · intro h
    unfold getCurrentUser
    rw [h]
  · intro s u hs hp
    by_cases hse : s = ""
    · exact absurd (hse ▸ hp) (hempty u)
    · unfold getCurrentUser
      rw [hs]
      simp [hse, hp]
  · intro s e hs hp
    unfold getCurrentUser
    rw [hs]
    by_cases hse : s = ""
    · simp [hse]
    · simp [hse, hp]

/-- The stored user of the C10 witness. -/
def sampleUser : CurrentUser :=
  { id := 1, username := "paulc", is_admin := false, is_groom := true }

/-- A concrete parse function for the C10 witness: succeeds only on the
one stored string, throws on everything else (in particular on ""). -/
def sampleParse : String → Except String CurrentUser := fun s =>
  if s = "user-json" then .ok sampleUser else .error "Unexpected token"

/-- A concrete localStorage state for the C10 witness. -/
def sampleStore : String → Option String := fun k =>
  if k = "current_user" then some "user-json" else none

/-- Witness for C10: with the key present and holding parseable content,
`getCurrentUser` returns the parsed user. -/
theorem getCurrentUser_never_throws_witness :
    getCurrentUser sampleStore sampleParse = some sampleUser := by
  have h := getCurrentUser_never_throws sampleStore sampleParse
    (by intro u h; simp [sampleParse] at h)
  exact h.2.1 "user-json" sampleUser rfl rfl

/-! ### usePacks hook
From the usePacks hook (third document of
src/frontend/src/hooks/useChallenges.ts) and the pack types module. -/

/-- The rarity union of a `PackReward` (pack types module). -/
inductive Rarity where
  | common
  | rare
  | epic
  | legendary
deriving DecidableEq, Repr

/-- The `PackReward` record (pack types module). -/
structure PackReward where
  id : Nat
  name : String
  description : String
  rewardType : String
  rarity : Rarity
deriving DecidableEq, Repr

/-- The `animation_data` payload of a `PackOpenResult`. -/
structure AnimationData where
  duration : Nat
  rarity : String
  effects : List String
deriving DecidableEq, Repr

/-- The `PackOpenResult` record (pack types module). -/
structure PackOpenResult where
  success : Bool
  reward : PackReward
  new_inventory : PackInventory
  animation_data : AnimationData
deriving DecidableEq, Repr

/-- A failed service call as `usePacks` consumes it (axios-style):
an optional `response.data.detail` and an optional `message`. -/
structure ServiceError where
  detail : Option String
  message : Option String
deriving DecidableEq, Repr

/-- The JS expression `a || b` where `a` is a possibly-absent string:
an absent or empty (falsy) `a` falls through to `b`. -/
def jsStringOr (a : Option String) (b : String) : String :=
  match a with
  | some s => if s = "" then b else s
  | none => b

/-- The error message `usePacks` records:
`err.response?.data?.detail || err.message || fallback`. -/
def serviceErrorMessage (e : ServiceError) (fallback : String) : String :=
  jsStringOr e.detail (jsStringOr e.message fallback)

/-- The state kept by the `usePacks` hook. -/
structure PacksState where
  inventory : Option PackInventory
  isOpening : Bool
  loading : Bool
  error : Option String
deriving DecidableEq, Repr

/-- The `fetchInventory` callback of `usePacks`: on success stores the
inventory and clears the error, on failure records the message; either
way loading ends and nothing is thrown. -/
def fetchInventory (svcInv : Except ServiceError PackInventory)
    (s : PacksState) : PacksState :=
  match svcInv with
  | .ok d => { s with loading := false, inventory := some d, error := none }
  | .error e =>
    { s with
        loading := false
        error := some (serviceErrorMessage e "Failed to fetch pack inventory") }

/-- The `purchasePack` callback of `usePacks`: `svcPurchase` models
`packService.purchasePack`.  On success it stores the new inventory,
clears the error and returns true; on failure it records the caller-facing
message and returns false — it never throws. -/
def purchasePack (svcPurchase : String → Except ServiceError PackInventory)
    (s : PacksState) (tier : String) : PacksState × Bool :=
  match svcPurchase tier with
  | .ok newInventory =>
    ({ s with error := none, inventory := some newInventory }, true)
  | .error e =>
    ({ s with
       error := some (serviceErrorMessage e "Failed to purchase pack") },
     false)

/-- The `openPack` callback of `usePacks`: `svcOpen` models
`packService.openPack` and `svcInv` the inventory refresh that follows a
successful open.  On success it returns the `PackOpenResult` after
refreshing the inventory; on failure it records the message and returns
null; the `finally` clears `isOpening` either way — it never throws. -/
def openPack (svcOpen : String → Except ServiceError PackOpenResult)
    (svcInv : Except ServiceError PackInventory)
    (s : PacksState) (tier : String) : PacksState × Option PackOpenResult :=
  match svcOpen tier with
  | .ok result =>
    ({ fetchInventory svcInv { s with isOpening := true, error := none }
        with isOpening := false }, some result)
  | .error e =>
    ({ s with
        isOpening := false
        error := some (serviceErrorMessage e "Failed to open pack") }, none)

/-- C7: the pack operations of `usePacks` are non-throwing for failed
requests — `purchasePack` returns true and stores the new inventory
exactly on service success and returns false with a recorded caller-facing
message on any service error; `openPack` returns the `PackOpenResult`
exactly on service success and returns null with a recorded message on
any service error.  Both are total functions here, so no exception
propagates to the caller. -/
theorem usePacks_operations_nonthrowing
    (svcPurchase : String → Except ServiceError PackInventory)
    (svcOpen : String → Except ServiceError PackOpenResult)
    (svcInv : Except ServiceError PackInventory)
    (s : PacksState) (tier : String) :
    (∀ inv, svcPurchase tier = .ok inv →
      purchasePack svcPurchase s tier =
        ({ s with error := none, inventory := some inv }, true)) ∧
    (∀ e, svcPurchase tier = .error e →
      (purchasePack svcPurchase s tier).2 = false ∧
      (purchasePack svcPurchase s tier).1.error =
        some (serviceErrorMessage e "Failed to purchase pack")) ∧
    (∀ r, svcOpen tier = .ok r →
      (openPack svcOpen svcInv s tier).2 = some r) ∧
    (∀ e, svcOpen tier = .error e →
      (openPack svcOpen svcInv s tier).2 = none ∧
      (openPack svcOpen svcInv s tier).1.error =
        some (serviceErrorMessage e "Failed to open pack")) := by
  refine ⟨?_, ?_, ?_, ?_⟩
  · intro inv h
    unfold purchasePack
    rw [h]
  · intro e h
    unfold purchasePack
    rw [h]
    exact ⟨rfl, rfl⟩
  · intro r h
    unfold openPack
    rw [h]
  · intro e h
    unfold openPack
    rw [h]
    exact ⟨rfl, rfl⟩

/-- A concrete service error for the C7 witness, with no detail and no
message, falling through to the fallback text. -/
def sampleServiceError : ServiceError := { detail := none, message := none }

/-- Witness for C7: a purchase that succeeds with an empty inventory
returns true, and an open that fails with `sampleServiceError` returns
null and records the fallback message. -/
theorem usePacks_operations_nonthrowing_witness :
    (purchasePack (fun _ => .ok ⟨0, 0, 0, 0⟩)
        ⟨none, false, false, none⟩ "bronze").2 = true ∧
    (openPack (fun _ => .error sampleServiceError) (.ok ⟨0, 0, 0, 0⟩)
        ⟨none, false, false, none⟩ "bronze").2 = none ∧
    (openPack (fun _ => .error sampleServiceError) (.ok ⟨0, 0, 0, 0⟩)
        ⟨none, false, false, none⟩ "bronze").1.error =
      some "Failed to open pack" := by
  have h := usePacks_operations_nonthrowing (fun _ => .ok ⟨0, 0, 0, 0⟩)
    (fun _ => .error sampleServiceError) (.ok ⟨0, 0, 0, 0⟩)
    ⟨none, false, false, none⟩ "bronze"
  have hopen := h.2.2.2 sampleServiceError rfl
  exact ⟨by rw [h.1 ⟨0, 0, 0, 0⟩ rfl], hopen.1, hopen.2⟩

/-! ### Welcome-pack toast
From the welcome effect of src/frontend/src/pages/PacksPage.tsx. -/

/-- The inventory shape the welcome effect tests:
`inventory.silver === 1 && totalPacks === 1` where `totalPacks` sums the
four tiers. -/
def isWelcomeInventory (inv : PackInventory) : Bool :=
  decide (inv.silver = 1) &&
    decide (inv.bronze + inv.silver + inv.gold + inv.ultimate = 1)

/-- One run of the welcome-toast effect: `shown` is
`hasShownWelcome.current`; the effect fires the toast (second component)
and sets the flag only when not loading, the inventory is non-null, the
flag is unset and the inventory has the welcome shape. -/
def welcomeEffect (shown loading : Bool)
    (inventory : Option PackInventory) : Bool × Bool :=
  if !loading && inventory.isSome && !shown then
    match inventory with
    | some inv =>
      if isWelcomeInventory inv then (true, true) else (shown, false)
    | none => (shown, false)
  else (shown, false)

/-- Run the effect over the sequence of (loading, inventory) observations
of one page mount, counting fired toasts. -/
def welcomeRun (shown : Bool) :
    List (Bool × Option PackInventory) → Bool × Nat
  | [] => (shown, 0)
  | (l, inv) :: rest =>
    let step := welcomeEffect shown l inv
    let tail := welcomeRun step.1 rest
    (tail.1, (if step.2 then 1 else 0) + tail.2)

/-- Whether an observation is a loaded inventory of the welcome shape. -/
def isLoadedWelcome : Bool × Option PackInventory → Bool
  | (l, some inv) => !l && isWelcomeInventory inv
  | (_, none) => false

/-- Helper: once the flag is set, no later observation fires the toast. -/
theorem welcomeRun_shown (trace : List (Bool × Option PackInventory)) :
    welcomeRun true trace = (true, 0) := by
  induction trace with
  | nil => rfl
  | cons o rest ih =>
    obtain ⟨l, inv⟩ := o
    simp [welcomeRun, welcomeEffect, ih]

/-- C9 counterexample: the claim ties the toast to the first loaded
inventory, but the flag is set only when the toast fires — on the trace
whose first loaded inventory is one bronze pack (not the welcome shape)
and whose second is one silver pack, the toast still fires once, though
the claim predicts no toast for this mount. -/
theorem packsPage_welcome_first_load_false :
    isLoadedWelcome (false, some ⟨1, 0, 0, 0⟩) = false ∧
    welcomeRun false
      [(false, some ⟨1, 0, 0, 0⟩), (false, some ⟨0, 1, 0, 0⟩)] =
      (true, 1) := by
  decide

/-- C9 amended: across one page mount, the welcome toast fires exactly
once if some loaded inventory observed during the mount consists of
exactly one silver pack and nothing else — the first such observation,
which need not be the first loaded inventory — and never otherwise; in
particular it fires at most once per mount no matter how often the
inventory refreshes, and never again once the flag is set. -/
theorem packsPage_welcome_toast_spec
    (trace : List (Bool × Option PackInventory)) :
    ((welcomeRun false trace).2 =
      if trace.any isLoadedWelcome then 1 else 0) ∧
    (welcomeRun false trace).2 ≤ 1 ∧
    (welcomeRun true trace).2 = 0 := by
  have hmain : (welcomeRun false trace).2 =
      if trace.any isLoadedWelcome then 1 else 0 := by
    induction trace with
    | nil => rfl
    | cons o rest ih =>
      obtain ⟨l, inv⟩ := o
      cases l with
      | false =>
        cases inv with
        | none =>
          simp [welcomeRun, welcomeEffect, isLoadedWelcome, List.any_cons, ih]
          exact if_congr (by simp) rfl rfl
        | some i =>
          cases hw : isWelcomeInventory i with
          | false =>
            simp [welcomeRun, welcomeEffect, isLoadedWelcome, hw,
              List.any_cons, ih]
            exact if_congr (by simp [hw]) rfl rfl
          | true =>
            simp [welcomeRun, welcomeEffect, isLoadedWelcome, hw,
              List.any_cons, welcomeRun_shown]
      | true =>
        cases inv with
        | none =>
          simp [welcomeRun, welcomeEffect, isLoadedWelcome, List.any_cons, ih]
          exact if_congr (by simp) rfl rfl
        | some i =>
          simp [welcomeRun, welcomeEffect, isLoadedWelcome, List.any_cons, ih]
          exact if_congr (by simp) rfl rfl
  refine ⟨hmain, ?_, by simp [welcomeRun_shown]⟩
  rw [hmain]
  split <;> omega

/-! ### Avatar utilities
From src/frontend/src/utils/avatarUtils.ts and its assets-based variant
(src/unnamed/part_010).  Strings are lists of characters; the JS string
methods `toLowerCase` and `normalize` are parameters constrained only
where the theorems need it. -/

/-- The character class of the final `[^a-z]` filter: ASCII a–z. -/
def isAsciiLowerAlpha (c : Char) : Bool :=
  decide (0x61 ≤ c.toNat ∧ c.toNat ≤ 0x7A)

/-- The combining-diacritic range `[̀-ͯ]` removed after NFD. -/
def isCombiningDiacritic (c : Char) : Bool :=
  decide (0x300 ≤ c.toNat ∧ c.toNat ≤ 0x36F)

/-- The JS regex class `\s` (whitespace removed by `replace(/\s+/g, '')`). -/
def isJsWhitespace (c : Char) : Bool :=
  decide (c.toNat ∈ [0x9, 0xA, 0xB, 0xC, 0xD, 0x20, 0xA0, 0x1680,
    0x2028, 0x2029, 0x202F, 0x205F, 0x3000, 0xFEFF]) ||
  decide (0x2000 ≤ c.toNat ∧ c.toNat ≤ 0x200A)

/-- The `normalizeUsername` pipeline: lowercase, NFD-decompose, strip
combining diacritics, strip whitespace, strip periods, keep only a–z.
`toLower` models `String.prototype.toLowerCase` character-wise and `nfd`
models `normalize('NFD')` character-wise (a character decomposes into a
list). -/
def normalizeUsername (toLower : Char → Char) (nfd : Char → List Char)
    (username : List Char) : List Char :=
  (((((username.map toLower).flatMap nfd).filter
      (fun c => !isCombiningDiacritic c)).filter
      (fun c => !isJsWhitespace c)).filter
      (fun c => !(c == '.'))).filter isAsciiLowerAlpha

/-- The `getAvatarUrl` of the assets-based variant:
`futCards[normalized] || defaultFutCard` — the mapped card when the map
has a truthy entry for the normalized username, the default card
otherwise. -/
def getAvatarUrl (toLower : Char → Char) (nfd : Char → List Char)
    (futCards : List Char → Option String) (defaultFutCard : String)
    (username : List Char) : String :=
  jsStringOr (futCards (normalizeUsername toLower nfd username))
    defaultFutCard

/-- Helper: an a–z character is not a combining diacritic, not JS
whitespace and not a period. -/
theorem lowerAlpha_char_facts (c : Char) (h : isAsciiLowerAlpha c = true) :
    isCombiningDiacritic c = false ∧ isJsWhitespace c = false ∧
    (c == '.') = false := by
  simp only [isAsciiLowerAlpha, decide_eq_true_eq] at h
  refine ⟨?_, ?_, ?_⟩
  · simp only [isCombiningDiacritic, decide_eq_false_iff_not]
    omega
  · simp only [isJsWhitespace, Bool.or_eq_false_iff,
      decide_eq_false_iff_not, List.mem_cons, List.not_mem_nil]
    constructor
    · intro hmem
      simp only [or_false] at hmem
      rcases hmem with h3|h3|h3|h3|h3|h3|h3|h3|h3|h3|h3|h3|h3|h3 <;> omega
    · omega
  · rw [beq_eq_false_iff_ne]
    intro hc
    rw [hc] at h
    exact absurd h (by decide)

/-- Helper: the pipeline fixes any string made only of a–z characters,
provided lowercasing and NFD fix single a–z characters (true of the JS
primitives). -/
theorem normalizeUsername_fixes_lower (toLower : Char → Char)
    (nfd : Char → List Char)
    (hLower : ∀ c, isAsciiLowerAlpha c = true → toLower c = c)
    (hNfd : ∀ c, isAsciiLowerAlpha c = true → nfd c = [c]) :
    ∀ l : List Char, (∀ c ∈ l, isAsciiLowerAlpha c = true) →
      normalizeUsername toLower nfd l = l := by
  intro l
  induction l with
  | nil => intro _; rfl
  | cons a l ih =>
    intro hl
    have ha := hl a (List.mem_cons_self a l)
    have hrest := fun c hc => hl c (List.mem_cons_of_mem a hc)
    have hfacts := lowerAlpha_char_facts a ha
    have htail := ih hrest
    unfold normalizeUsername at htail ⊢
    simp only [List.map_cons, hLower a ha, List.flatMap_cons, hNfd a ha,
      List.singleton_append, List.filter_cons, hfacts.1, hfacts.2.1,
      hfacts.2.2, ha, Bool.not_false, if_true, htail]

/-- C8: every character of `normalizeUsername`'s output is a lowercase
ASCII letter (for any lowercasing/NFD primitives); under the true facts
about the JS primitives — both fix single a–z characters — the function
is idempotent; and `getAvatarUrl` is total, yielding for every username
(the empty string included) either the matching card of the map or the
default fallback. -/
theorem normalizeUsername_spec (toLower : Char → Char)
    (nfd : Char → List Char)
    (hLower : ∀ c, isAsciiLowerAlpha c = true → toLower c = c)
    (hNfd : ∀ c, isAsciiLowerAlpha c = true → nfd c = [c]) :
    (∀ (u : List Char), ∀ c ∈ normalizeUsername toLower nfd u,
      isAsciiLowerAlpha c = true) ∧
    (∀ u : List Char,
      normalizeUsername toLower nfd (normalizeUsername toLower nfd u) =
        normalizeUsername toLower nfd u) ∧
    (∀ (futCards : List Char → Option String) (defaultFutCard : String)
        (u : List Char),
      (∃ s, futCards (normalizeUsername toLower nfd u) = some s ∧
        s ≠ "" ∧
        getAvatarUrl toLower nfd futCards defaultFutCard u = s) ∨
      getAvatarUrl toLower nfd futCards defaultFutCard u =
        defaultFutCard) := by
  have himg : ∀ (u : List Char), ∀ c ∈ normalizeUsername toLower nfd u,
      isAsciiLowerAlpha c = true := by
    intro u c hc
    unfold normalizeUsername at hc
    exact (List.mem_filter.mp hc).2
  refine ⟨himg, ?_, ?_⟩
  · intro u
    exact normalizeUsername_fixes_lower toLower nfd hLower hNfd _ (himg u)
  · intro futCards defaultFutCard u
    unfold getAvatarUrl jsStringOr
    cases hf : futCards (normalizeUsername toLower nfd u) with
    | none => exact Or.inr rfl
    | some s =>
      by_cases hs : s = ""
      · simp [hs]
      · exact Or.inl ⟨s, rfl, hs, by simp [hs]⟩

/-- Witness for C8 at the username "Paul C." with identity primitives
(which fix a–z characters): normalizing twice equals normalizing once,
and with an empty card map the avatar falls back to the default. -/
theorem normalizeUsername_spec_witness :
    normalizeUsername (fun c => c) (fun c => [c])
        (normalizeUsername (fun c => c) (fun c => [c])
          "Paul C.".toList) =
      normalizeUsername (fun c => c) (fun c => [c]) "Paul C.".toList ∧
    getAvatarUrl (fun c => c) (fun c => [c]) (fun _ => none)
        "/fut_card_default.png" "Paul C.".toList =
      "/fut_card_default.png" := by
  have h := normalizeUsername_spec (fun c => c) (fun c => [c])
    (fun _ _ => rfl) (fun _ _ => rfl)
  refine ⟨h.2.1 "Paul C.".toList, ?_⟩
  rcases h.2.2 (fun _ => none) "/fut_card_default.png" "Paul C.".toList with
    ⟨s, hs, _, _⟩ | hdef
  · exact absurd hs (by simp)
  · exact hdef
